import Mathlib

/-!
Shallow embedding of the read-through cache coordinator of the cds-caching
repository (src/lib/operations/CapOperations.js), together with theorems about
its behaviour.

Modelling conventions:
* Fallible JavaScript calls are values of type `Except JSError α`: each external
  collaborator (cache backend, statistics recorder, origin service) is an oracle
  recording the outcome its single invocation in a coordinator call would have.
* The coordinator functions return a pair of the JavaScript return/throw outcome
  (`Except JSError _`) and a trace of the collaborator invocations performed, in
  order.  Invocations are recorded in the trace whether they succeed or throw.
* `KeyManager.createKey` / `createContentHash`, the latency readings of
  `process.hrtime`, `Date.now()` and `TagResolver.resolveTags` are external
  collaborators (out of the specified core); their per-call results are fields of
  an environment record `Env`.
* `cache.send("GET"/"SET", ...)` dispatches to the backend `get`/`set` handlers
  (src/lib/CachingService.js, handleGet/handleSet), so it is modelled as the
  direct backend operation, with `result?.value !== undefined` collapsed to an
  `Option` value.
* Logging and the purely observational `res.setHeader` calls are omitted.
-/

namespace CdsCaching

/-- Decidable equality of call outcomes. -/
instance {ε α : Type} [DecidableEq ε] [DecidableEq α] : DecidableEq (Except ε α) := fun a b =>
  match a, b with
  | .ok x, .ok y =>
      if h : x = y then .isTrue (h ▸ rfl) else .isFalse (fun hc => h (Except.ok.inj hc))
  | .error x, .error y =>
      if h : x = y then .isTrue (h ▸ rfl) else .isFalse (fun hc => h (Except.error.inj hc))
  | .ok _, .error _ => .isFalse (fun hc => Except.noConfusion hc)
  | .error _, .ok _ => .isFalse (fun hc => Except.noConfusion hc)

/-- A JavaScript error value: its message plus an identity tag `eid`
distinguishing distinct error objects that share a message. -/
structure JSError where
  message : String
  eid : Nat := 0
deriving DecidableEq

/-- The `context` object passed to `safeCacheOperation` at its call sites:
one shape per call site family in CapOperations.js. -/
inductive ErrCtx where
  | keyService (key : String) (serviceName : Option String)
  | keyLatency (key : String) (latency : Nat)
  | keyTtl (key : String) (ttl : Nat)
  | keyOnly (key : String)
deriving DecidableEq

/-- The structured error record built by `safeCacheOperation` on failure and
accumulated in `cacheErrors`. -/
structure CacheError where
  message : String
  operation : String
  context : ErrCtx
deriving DecidableEq

/-- The result object of `safeCacheOperation`:
`{ success, result, error }` with `result`/`error` null on the other branch. -/
structure SafeResult (α : Type) where
  success : Bool
  result : Option α
  error : Option CacheError
deriving DecidableEq

/-- CapOperations.safeCacheOperation: run the operation; on success return
`{success: true, result, error: null}`; on a thrown error return
`{success: false, result: null, error: {message, operation, context}}`. -/
def safeCacheOperation (operation : Except JSError α) (operationName : String)
    (context : ErrCtx) : SafeResult α :=
  match operation with
  | .ok result => { success := true, result := some result, error := none }
  | .error e =>
      { success := false, result := none,
        error := some { message := e.message, operation := operationName, context := context } }

/-- The `if (!r.success) cacheErrors.push(r.error)` idiom after each wrapped
call. -/
def pushError (cacheErrors : List CacheError) (r : SafeResult α) : List CacheError :=
  if r.success then cacheErrors else cacheErrors ++ r.error.toList

/-- The wrapped value written to the backend on a miss:
`{ value: response, tags, timestamp: Date.now() }`. -/
structure CacheEntry (V : Type) where
  value : Option V
  tags : List String
  timestamp : Nat
deriving DecidableEq

/-- The `metadata` sub-object of the response envelope. -/
structure EnvMeta where
  hit : Bool
  latency : Nat
deriving DecidableEq

/-- The read-through response envelope
`{ result, cacheKey, metadata: {hit, latency}, cacheErrors }`.
`result`/`cacheKey` are `none` when the source returns null there. -/
structure Envelope (V : Type) where
  result : Option V
  cacheKey : Option String
  metadata : EnvMeta
  cacheErrors : List CacheError
deriving DecidableEq

/-- The literal envelope
`{result: null, cacheKey: null, metadata: {hit: false, latency: 0}, cacheErrors: []}`
returned on the bypass paths. -/
def emptyEnvelope {V : Type} : Envelope V :=
  { result := none, cacheKey := none,
    metadata := { hit := false, latency := 0 }, cacheErrors := [] }

/-- One collaborator invocation performed by a coordinator call. -/
inductive Event (V : Type) where
  | hasCall (key : String)
  | getCall (key : String)
  | setCall (key : String) (entry : CacheEntry V) (ttl : Nat)
  | recordHitCall (latency : Nat) (key : String)
  | recordMissCall (latency : Nat) (key : String)
  | originCall
deriving DecidableEq

def Event.isHasCall : Event V → Bool
  | .hasCall _ => true
  | _ => false

def Event.isGetCall : Event V → Bool
  | .getCall _ => true
  | _ => false

def Event.isSetCall : Event V → Bool
  | .setCall _ _ _ => true
  | _ => false

def Event.isBackendCall (e : Event V) : Bool :=
  e.isHasCall || e.isGetCall || e.isSetCall

def Event.isOriginCall : Event V → Bool
  | .originCall => true
  | _ => false

def Event.isRecordHitCall : Event V → Bool
  | .recordHitCall _ _ => true
  | _ => false

def Event.isRecordMissCall : Event V → Bool
  | .recordMissCall _ _ => true
  | _ => false

/-- Per-call outcome oracle for the cache backend collaborator
(`cache.has`, `cache.send("GET")`, `cache.send("SET")`).  A `get` outcome of
`.ok none` models a response whose `value` is undefined. -/
structure Backend (V : Type) where
  has : Except JSError Bool
  get : Except JSError (Option V)
  set : Except JSError Unit

/-- Per-call outcome oracle for the statistics recorder collaborator. -/
structure Stats where
  recordHit : Except JSError Unit
  recordMiss : Except JSError Unit

/-- The service argument of `send`: its name, whether it has a `send` method
(`!service.send` triggers the bypass), and the outcome of invoking
`service.send(request)`. -/
structure Service (V : Type) where
  name : Option String := none
  hasSend : Bool := true
  send : Except JSError (Option V) := .ok none

/-- The context-fields object handed to `TagResolver.resolveTags`
(spread request params plus user/tenant/locale/hash as applicable). -/
structure TagCtx where
  params : List (String × String) := []
  user : Option String := none
  tenant : Option String := none
  locale : Option String := none
  hash : Option String := none
deriving DecidableEq

/-- Per-call results of the external collaborators that are out of the
specified core: the key produced by `KeyManager.createKey`, the content hash,
the tag resolver, the two elapsed-time readings and `Date.now()`. -/
structure Env (V : Type) where
  key : String
  hash : String
  resolveTags : Option (List String) → Option V → TagCtx → List String
  cacheLatency : Nat
  totalLatency : Nat
  now : Nat

/-- Resolved cache options `{ ttl, key, tags }` (after defaults/annotation
extraction and spreading the caller options). -/
structure CacheOptions where
  ttl : Nat := 0
  key : Option String := none
  tags : Option (List String) := none
deriving DecidableEq

/-- The caller-supplied options object: each field is present (`some`) or
absent. -/
structure OptArg where
  ttl : Option Nat := none
  key : Option String := none
  tags : Option (List String) := none
deriving DecidableEq

/-- The `{ ...base, ...(options || \x7b\x7d) }` spread: fields present in the
caller options override the base object. -/
def mergeOptions (base : CacheOptions) (options : Option OptArg) : CacheOptions :=
  match options with
  | none => base
  | some o =>
      { ttl := o.ttl.getD base.ttl,
        key := match o.key with | some k => some k | none => base.key,
        tags := match o.tags with | some t => some t | none => base.tags }

/-- The fields of the request argument of `send` that the algorithm reads
(the remaining fields only feed key derivation and statistics metadata). -/
structure SendReq where
  method : Option String := none
  params : List (String × String) := []
  user : Option String := none
  tenant : Option String := none
  locale : Option String := none

/-- JavaScript `toUpperCase` (over the ASCII range the method names use). -/
def jsToUpper (s : String) : String := String.mk (s.data.map Char.toUpper)

/-- The write-method test
`['POST', 'PUT', 'DELETE', 'PATCH'].includes(request.method?.toUpperCase())`. -/
def isWriteMethod (method : Option String) : Bool :=
  match method with
  | some m => ["POST", "PUT", "DELETE", "PATCH"].contains (jsToUpper m)
  | none => false

/-- The fall-through miss path of `send` (origin call, `recordMiss`, cache
write), entered with the cache errors and trace accumulated so far. -/
def sendMissPath (request : SendReq) (service : Service V) (requestOptions : CacheOptions)
    (env : Env V) (cache : Backend V) (stats : Stats)
    (cacheErrors : List CacheError) (trace : List (Event V)) :
    Except JSError (Envelope V) × List (Event V) :=
  let key := env.key
  match service.send with
  | .error serviceError => (.error serviceError, trace ++ [.originCall])
  | .ok response =>
      let totalLatency := env.totalLatency
      let missStatsResult := safeCacheOperation stats.recordMiss "recordMiss"
        (.keyLatency key totalLatency)
      let cacheErrors := pushError cacheErrors missStatsResult
      let wrappedValue : CacheEntry V :=
        { value := response,
          tags := env.resolveTags requestOptions.tags response
            { params := request.params, user := request.user, tenant := request.tenant,
              locale := request.locale, hash := some env.hash },
          timestamp := env.now }
      let setResult := safeCacheOperation cache.set "set" (.keyTtl key requestOptions.ttl)
      let cacheErrors := pushError cacheErrors setResult
      (.ok { result := response, cacheKey := some key,
             metadata := { hit := false, latency := totalLatency },
             cacheErrors := cacheErrors },
       trace ++ [.originCall, .recordMissCall totalLatency key,
                 .setCall key wrappedValue requestOptions.ttl])

/-- CapOperations.send: read-through around `service.send(request)`. -/
def sendOp (request : SendReq) (service : Service V) (options : Option OptArg)
    (env : Env V) (cache : Backend V) (stats : Stats) :
    Except JSError (Envelope V) × List (Event V) :=
  let requestOptions := mergeOptions { ttl := 0 } options
  if isWriteMethod request.method || !service.hasSend then
    (.ok emptyEnvelope, [])
  else
    let key := env.key
    let hasKeyResult := safeCacheOperation cache.has "has" (.keyService key service.name)
    let hasKey := hasKeyResult.success && hasKeyResult.result.getD false
    if hasKey then
      let latency := env.cacheLatency
      let hitStatsResult := safeCacheOperation stats.recordHit "recordHit"
        (.keyLatency key latency)
      let cacheErrors := pushError [] hitStatsResult
      let getResult := safeCacheOperation cache.get "get" (.keyOnly key)
      match getResult.success, getResult.result with
      | true, some (some value) =>
          (.ok { result := some value, cacheKey := some key,
                 metadata := { hit := true, latency := latency },
                 cacheErrors := cacheErrors },
           [.hasCall key, .recordHitCall latency key, .getCall key])
      | _, _ =>
          sendMissPath request service requestOptions env cache stats cacheErrors
            [.hasCall key, .recordHitCall latency key, .getCall key]
    else
      sendMissPath request service requestOptions env cache stats []
        [.hasCall key]

/-- The sub-object of `req.query` that the mutation test of `run` reads:
truthiness of its UPDATE / INSERT / DELETE properties. -/
structure QueryObj where
  UPDATE : Bool := false
  INSERT : Bool := false
  DELETE : Bool := false
deriving DecidableEq

/-- An entity target with its caching annotations
(`@cache.ttl` / `@cache.key` / `@cache.tags`, defaults applied at use). -/
structure Target where
  name : Option String := none
  cacheTtl : Nat := 0
  cacheKey : Option String := none
  cacheTags : List String := []
deriving DecidableEq

/-- One entry of `cacheAnnotatedFunctions.bound` / `.unbound`. -/
structure AnnotatedFunction where
  name : String
  cacheTtl : Nat := 0
  cacheKey : Option String := none
  cacheTags : List String := []
deriving DecidableEq

structure CacheAnnotatedFunctions where
  bound : List AnnotatedFunction := []
  unbound : List AnnotatedFunction := []
deriving DecidableEq

/-- The fields of the first argument of `run` that either branch reads:
`query`/`event`/`target`/`params` on the request branch, `SELECT`/`params` on
the cds.ql branch (any JavaScript object carries all of them, possibly
undefined). -/
structure RunArgObj where
  query : Option QueryObj := none
  SELECT : Option String := none
  event : Option String := none
  target : Option Target := none
  params : List (String × String) := []
deriving DecidableEq

/-- The first argument of `run` as the dispatch in the source sees it:
a non-object (`typeof arg1 !== "object"`), the null value (whose `typeof` is
"object" but which has no constructor), or an object with a constructor
name. -/
inductive RunArg (V : Type) where
  | notAnObject
  | nullValue
  | obj (ctorName : String) (payload : RunArgObj)
deriving DecidableEq

/-- The second argument of `run`: invoked as `next()` on the request branch,
used as `srv` (name, `srv.run(query)`) on the cds.ql branch.  When the
argument is absent the `cds` global plays this role (`arguments[1] || cds`). -/
structure RunPeer (V : Type) where
  name : Option String := none
  next : Except JSError (Option V) := .ok none
  run : Except JSError (Option V) := .ok none

/-- The TypeError thrown by `arg1.constructor.name` when `arg1` is null. -/
def nullConstructorError : JSError :=
  { message := "Cannot read properties of null", eid := 0 }

/-- What a `run` call produces when it returns: the response envelope, or the
bare origin result on the two delegation paths. -/
inductive RunOut (V : Type) where
  | envelope (e : Envelope V)
  | bare (v : Option V)
deriving DecidableEq

/-- Returning the origin invocation directly (`return next()` /
`return srv.run(query)`): its value comes back bare, its error propagates. -/
def bareOf (r : Except JSError (Option V)) : Except JSError (RunOut V) :=
  match r with
  | .ok v => .ok (.bare v)
  | .error e => .error e

/-- The constructor names sharing the request branch of the dispatch. -/
def isRequestCtor (ctorName : String) : Bool :=
  ctorName == "Request" || ctorName == "ODataRequest" || ctorName == "NoaRequest"

/-- The mutation test `req.query?.UPDATE || req.query?.INSERT || req.query?.DELETE`. -/
def mutationQuery (req : RunArgObj) : Bool :=
  match req.query with
  | some q => q.UPDATE || q.INSERT || q.DELETE
  | none => false

/-- CapOperations.extractFunctionCacheOptions. -/
def extractFunctionCacheOptions (caps : CacheAnnotatedFunctions) (req : RunArgObj)
    (options : Option OptArg) : CacheOptions :=
  let functionList := if req.query.isSome then caps.bound else caps.unbound
  let functionOptions := functionList.find? (fun f => req.event == some f.name)
  mergeOptions
    { ttl := (functionOptions.map (fun f => f.cacheTtl)).getD 0,
      key := functionOptions.bind (fun f => f.cacheKey),
      tags := some ((functionOptions.map (fun f => f.cacheTags)).getD []) }
    options

/-- CapOperations.extractEntityCacheOptions. -/
def extractEntityCacheOptions (req : RunArgObj) (options : Option OptArg) : CacheOptions :=
  mergeOptions
    { ttl := (req.target.map (fun t => t.cacheTtl)).getD 0,
      key := req.target.bind (fun t => t.cacheKey),
      tags := some ((req.target.map (fun t => t.cacheTags)).getD []) }
    options

/-- The Request / ODataRequest / NoaRequest branch of `run`. -/
def runRequestBranch (req : RunArgObj) (next : Except JSError (Option V))
    (options : Option OptArg) (caps : CacheAnnotatedFunctions) (env : Env V)
    (cache : Backend V) (stats : Stats) :
    Except JSError (RunOut V) × List (Event V) :=
  if mutationQuery req then
    (bareOf next, [.originCall])
  else
    let cacheOptions :=
      if req.event.isSome then extractFunctionCacheOptions caps req options
      else extractEntityCacheOptions req options
    let cacheKey := env.key
    let getResult := safeCacheOperation cache.get "get"
      (.keyService cacheKey (req.target.bind (fun t => t.name)))
    let cacheLatency := env.cacheLatency
    match getResult.success, getResult.result with
    | true, some (some value) =>
        let hitStatsResult := safeCacheOperation stats.recordHit "recordHit"
          (.keyLatency cacheKey cacheLatency)
        let cacheErrors := pushError [] hitStatsResult
        (.ok (.envelope { result := some value, cacheKey := some cacheKey,
                          metadata := { hit := true, latency := cacheLatency },
                          cacheErrors := cacheErrors }),
         [.getCall cacheKey, .recordHitCall cacheLatency cacheKey])
    | _, _ =>
        match next with
        | .error serviceError => (.error serviceError, [.getCall cacheKey, .originCall])
        | .ok response =>
            let totalLatency := env.totalLatency
            let missStatsResult := safeCacheOperation stats.recordMiss "recordMiss"
              (.keyLatency cacheKey totalLatency)
            let cacheErrors := pushError [] missStatsResult
            let wrappedValue : CacheEntry V :=
              { value := response,
                tags := env.resolveTags cacheOptions.tags response
                  { params := req.params, hash := some env.hash },
                timestamp := env.now }
            let setResult := safeCacheOperation cache.set "set"
              (.keyTtl cacheKey cacheOptions.ttl)
            let cacheErrors := pushError cacheErrors setResult
            (.ok (.envelope { result := response, cacheKey := some cacheKey,
                              metadata := { hit := false, latency := totalLatency },
                              cacheErrors := cacheErrors }),
             [.getCall cacheKey, .originCall, .recordMissCall totalLatency cacheKey,
              .setCall cacheKey wrappedValue cacheOptions.ttl])

/-- The fall-through miss path of the cds.ql branch of `run` (origin call,
`recordMiss`, cache write), entered with the cache errors and trace accumulated
so far. -/
def runQlMissPath (query : RunArgObj) (srv : RunPeer V) (options : CacheOptions)
    (env : Env V) (cache : Backend V) (stats : Stats)
    (cacheErrors : List CacheError) (trace : List (Event V)) :
    Except JSError (RunOut V) × List (Event V) :=
  let cacheKey := env.key
  match srv.run with
  | .error serviceError => (.error serviceError, trace ++ [.originCall])
  | .ok data =>
      let totalLatency := env.totalLatency
      let missStatsResult := safeCacheOperation stats.recordMiss "recordMiss"
        (.keyLatency cacheKey totalLatency)
      let cacheErrors := pushError cacheErrors missStatsResult
      let wrappedValue : CacheEntry V :=
        { value := data,
          tags := env.resolveTags options.tags data
            { params := query.params, hash := some env.hash },
          timestamp := env.now }
      let setResult := safeCacheOperation cache.set "set" (.keyTtl cacheKey options.ttl)
      let cacheErrors := pushError cacheErrors setResult
      (.ok (.envelope { result := data, cacheKey := some cacheKey,
                        metadata := { hit := false, latency := totalLatency },
                        cacheErrors := cacheErrors }),
       trace ++ [.originCall, .recordMissCall totalLatency cacheKey,
                 .setCall cacheKey wrappedValue options.ttl])

/-- The cds.ql branch of `run`. -/
def runQlBranch (query : RunArgObj) (srv : RunPeer V) (optionsArg : Option OptArg)
    (env : Env V) (cache : Backend V) (stats : Stats) :
    Except JSError (RunOut V) × List (Event V) :=
  match query.SELECT with
  | none => (bareOf srv.run, [.originCall])
  | some _ =>
    let options := mergeOptions { ttl := 0, tags := some [] } optionsArg
    let cacheKey := env.key
    let hasCachedValueResult := safeCacheOperation cache.has "has"
      (.keyService cacheKey srv.name)
    let hasCachedValue := hasCachedValueResult.success
      && hasCachedValueResult.result.getD false
    let cacheLatency := env.cacheLatency
    if hasCachedValue then
      let hitStatsResult := safeCacheOperation stats.recordHit "recordHit"
        (.keyLatency cacheKey cacheLatency)
      let cacheErrors := pushError [] hitStatsResult
      let getResult := safeCacheOperation cache.get "get" (.keyOnly cacheKey)
      match getResult.success, getResult.result with
      | true, some (some value) =>
          (.ok (.envelope { result := some value, cacheKey := some cacheKey,
                            metadata := { hit := true, latency := cacheLatency },
                            cacheErrors := cacheErrors }),
           [.hasCall cacheKey, .recordHitCall cacheLatency cacheKey, .getCall cacheKey])
      | _, _ =>
          runQlMissPath query srv options env cache stats cacheErrors
            [.hasCall cacheKey, .recordHitCall cacheLatency cacheKey, .getCall cacheKey]
    else
      runQlMissPath query srv options env cache stats [] [.hasCall cacheKey]

/-- CapOperations.run: dispatch on the shape of the first argument. -/
def runOp (arg1 : RunArg V) (peer : RunPeer V) (optionsArg : Option OptArg)
    (caps : CacheAnnotatedFunctions) (env : Env V) (cache : Backend V) (stats : Stats) :
    Except JSError (RunOut V) × List (Event V) :=
  match arg1 with
  | .notAnObject => (.ok (.envelope emptyEnvelope), [])
  | .nullValue => (.error nullConstructorError, [])
  | .obj ctorName payload =>
      if isRequestCtor ctorName then
        runRequestBranch payload peer.next optionsArg caps env cache stats
      else if ctorName == "cds.ql" then
        runQlBranch payload peer optionsArg env cache stats
      else
        (.ok (.envelope emptyEnvelope), [])

/-! Concrete fixtures used to evaluate the model at specific inputs. -/

def envW : Env Nat :=
  { key := "k", hash := "h", resolveTags := fun _ _ _ => [],
    cacheLatency := 1, totalLatency := 2, now := 5 }

def statsOkW : Stats := { recordHit := .ok (), recordMiss := .ok () }

def statsHitFailsW : Stats :=
  { recordHit := .error { message := "stats db down", eid := 2 }, recordMiss := .ok () }

def serviceOkW : Service Nat :=
  { name := some "srv", hasSend := true, send := .ok (some 42) }

def cacheMissW : Backend Nat := { has := .ok false, get := .ok none, set := .ok () }

def cacheHitW : Backend Nat := { has := .ok true, get := .ok (some 5), set := .ok () }

def cacheHasFailsW : Backend Nat :=
  { has := .error { message := "redis down", eid := 1 }, get := .ok none, set := .ok () }

def peerOkW : RunPeer Nat :=
  { name := some "S", next := .ok (some 7), run := .ok (some 3) }

def updateReqW : RunArgObj := { query := some { UPDATE := true } }

/-- A cds.ql payload with a SELECT, used by witnesses. -/
def selectQlW : RunArgObj := { SELECT := some "q" }

/-- A cache-error entry produced by a failing statistics call
(operation `recordHit` or `recordMiss`). -/
def isStatsError (ce : CacheError) : Bool :=
  ce.operation == "recordHit" || ce.operation == "recordMiss"

/-- Drop the statistics-failure entries from the `cacheErrors` of a `send`
outcome, leaving every other field untouched. -/
def stripStats {V : Type} (r : Except JSError (Envelope V)) : Except JSError (Envelope V) :=
  match r with
  | .ok envl =>
      .ok { envl with cacheErrors := envl.cacheErrors.filter (fun ce => !isStatsError ce) }
  | .error er => .error er

/-- Drop the statistics-failure entries from the `cacheErrors` of a `run`
outcome, leaving every other field untouched. -/
def stripStatsRun {V : Type} (r : Except JSError (RunOut V)) : Except JSError (RunOut V) :=
  match r with
  | .ok (.envelope envl) =>
      .ok (.envelope
        { envl with cacheErrors := envl.cacheErrors.filter (fun ce => !isStatsError ce) })
  | other => other

/-- The two delegation paths of `run` on which the source returns the bare
origin result instead of an envelope: a Request-family object whose query is a
mutation, and a cds.ql object without a SELECT. -/
def barePath {V : Type} (arg1 : RunArg V) : Bool :=
  match arg1 with
  | .obj ctorName payload =>
      (isRequestCtor ctorName && mutationQuery payload) ||
      (ctorName == "cds.ql" && payload.SELECT.isNone)
  | _ => false

/-- The origin invocation that a delegation path of `run` returns bare:
`next()` on the request branch, `srv.run(query)` on the cds.ql branch. -/
def bareOrigin {V : Type} (arg1 : RunArg V) (peer : RunPeer V) :
    Except JSError (Option V) :=
  match arg1 with
  | .obj ctorName _ => if isRequestCtor ctorName then peer.next else peer.run
  | _ => peer.next

/-- The result/cacheKey/metadata core of a `send` outcome (discarding
`cacheErrors`), `none` when the call threw. -/
def envelopeCore {V : Type} :
    Except JSError (Envelope V) → Option (Option V × Option String × EnvMeta)
  | .ok envl => some (envl.result, envl.cacheKey, envl.metadata)
  | .error _ => none

/-- The `cacheErrors` of a `send` outcome (empty when the call threw). -/
def envelopeErrors {V : Type} : Except JSError (Envelope V) → List CacheError
  | .ok envl => envl.cacheErrors
  | .error _ => []

/-- The result/cacheKey/metadata core of a `run` outcome that returned an
envelope. -/
def runEnvelopeCore {V : Type} :
    Except JSError (RunOut V) → Option (Option V × Option String × EnvMeta)
  | .ok (.envelope envl) => some (envl.result, envl.cacheKey, envl.metadata)
  | _ => none

/-- The `cacheErrors` of a `run` outcome that returned an envelope. -/
def runEnvelopeErrors {V : Type} : Except JSError (RunOut V) → List CacheError
  | .ok (.envelope envl) => envl.cacheErrors
  | _ => []

/-! Theorems about the claims. -/

/-- C8: the resilience wrapper `safeCacheOperation` returns
`{success: true, result, error: null}` when the operation returns normally and
`{success: false, result: null, error: {message, operation, context}}` when it
throws; being a total function of the operation outcome, it never throws
itself. -/
theorem safe_cache_operation_contract {α : Type} (operation : Except JSError α)
    (operationName : String) (context : ErrCtx) :
    (∀ r, operation = .ok r →
      safeCacheOperation operation operationName context =
        { success := true, result := some r, error := none }) ∧
    (∀ e, operation = .error e →
      safeCacheOperation operation operationName context =
        { success := false, result := none,
          error := some { message := e.message, operation := operationName,
                          context := context } }) := by
  constructor
  · rintro r rfl; rfl
  · rintro e rfl; rfl

/-- Witness for C8 at concrete inputs. -/
theorem safe_cache_operation_contract_witness :
    safeCacheOperation (.ok 3) "has" (.keyOnly "k") =
      { success := true, result := some 3, error := none } ∧
    safeCacheOperation (α := Nat) (.error { message := "boom", eid := 1 }) "get"
        (.keyOnly "k") =
      { success := false, result := none,
        error := some { message := "boom", operation := "get",
                        context := .keyOnly "k" } } :=
  ⟨(safe_cache_operation_contract (.ok 3) "has" (.keyOnly "k")).1 3 rfl,
   (safe_cache_operation_contract (.error { message := "boom", eid := 1 }) "get"
      (.keyOnly "k")).2 { message := "boom", eid := 1 } rfl⟩

/-- C1: for every coordinator call in which the origin invocation is performed
and throws, the call re-throws that identical error unchanged and performs no
backend `set` call (for `send`, and for every branch of `run`). -/
theorem origin_failure_propagation {V : Type} (request : SendReq) (service : Service V)
    (options : Option OptArg) (arg1 : RunArg V) (peer : RunPeer V)
    (optionsArg : Option OptArg) (caps : CacheAnnotatedFunctions)
    (env envR : Env V) (cache cacheR : Backend V) (stats statsR : Stats) (e : JSError)
    (hsend : service.send = .error e) (hnext : peer.next = .error e)
    (hrun : peer.run = .error e) :
    (((sendOp request service options env cache stats).2.any
        (fun ev => ev.isOriginCall)) = true →
      (sendOp request service options env cache stats).1 = .error e ∧
      ((sendOp request service options env cache stats).2.all
        (fun ev => !ev.isSetCall)) = true) ∧
    (((runOp arg1 peer optionsArg caps envR cacheR statsR).2.any
        (fun ev => ev.isOriginCall)) = true →
      (runOp arg1 peer optionsArg caps envR cacheR statsR).1 = .error e ∧
      ((runOp arg1 peer optionsArg caps envR cacheR statsR).2.all
        (fun ev => !ev.isSetCall)) = true) := by
  constructor
  · intro hmem
    cases hby : (isWriteMethod request.method || !service.hasSend) with
    | true => simp [sendOp, hby] at hmem
    | false =>
      rcases hhas : cache.has with eh | b
      · simp_all [sendOp, hby, hhas, hsend, safeCacheOperation, sendMissPath,
                  Event.isSetCall, Event.isOriginCall]
      · cases b with
        | false =>
          simp_all [sendOp, hby, hhas, hsend, safeCacheOperation, sendMissPath,
                    Event.isSetCall, Event.isOriginCall]
        | true =>
          rcases hget : cache.get with eg | og
          · simp_all [sendOp, hby, hhas, hget, hsend, safeCacheOperation, sendMissPath,
                      Event.isSetCall, Event.isOriginCall]
          · rcases og with _ | v
            · simp_all [sendOp, hby, hhas, hget, hsend, safeCacheOperation, sendMissPath,
                        Event.isSetCall, Event.isOriginCall]
            · simp_all [sendOp, hby, hhas, hget, hsend, safeCacheOperation, sendMissPath,
                        Event.isSetCall, Event.isOriginCall]
  · intro hmem
    cases arg1 with
    | notAnObject => simp [runOp] at hmem
    | nullValue => simp [runOp] at hmem
    | obj ctorName payload =>
      cases hc : isRequestCtor ctorName with
      | true =>
        cases hmut : mutationQuery payload with
        | true =>
          simp_all [runOp, hc, runRequestBranch, hmut, bareOf, hnext,
                    Event.isSetCall, Event.isOriginCall]
        | false =>
          rcases hget : cacheR.get with eg | og
          · simp_all [runOp, hc, runRequestBranch, hmut, hget, hnext,
                      safeCacheOperation, Event.isSetCall, Event.isOriginCall]
          · rcases og with _ | v
            · simp_all [runOp, hc, runRequestBranch, hmut, hget, hnext,
                        safeCacheOperation, Event.isSetCall, Event.isOriginCall]
            · simp_all [runOp, hc, runRequestBranch, hmut, hget, hnext,
                        safeCacheOperation, Event.isSetCall, Event.isOriginCall]
      | false =>
        cases hql : (ctorName == "cds.ql") with
        | false => simp [runOp, hc, hql] at hmem
        | true =>
          rcases hsel : payload.SELECT with _ | s
          · simp_all [runOp, hc, hql, runQlBranch, hsel, bareOf, hrun,
                      Event.isSetCall, Event.isOriginCall]
          · rcases hhasR : cacheR.has with ehh | bh
            · simp_all [runOp, hc, hql, runQlBranch, hsel, hhasR, hrun,
                        safeCacheOperation, runQlMissPath,
                        Event.isSetCall, Event.isOriginCall]
            · cases bh with
              | false =>
                simp_all [runOp, hc, hql, runQlBranch, hsel, hhasR, hrun,
                          safeCacheOperation, runQlMissPath,
                          Event.isSetCall, Event.isOriginCall]
              | true =>
                rcases hgetR : cacheR.get with eg | og
                · simp_all [runOp, hc, hql, runQlBranch, hsel, hhasR, hgetR, hrun,
                            safeCacheOperation, runQlMissPath,
                            Event.isSetCall, Event.isOriginCall]
                · rcases og with _ | v
                  · simp_all [runOp, hc, hql, runQlBranch, hsel, hhasR, hgetR, hrun,
                              safeCacheOperation, runQlMissPath,
                              Event.isSetCall, Event.isOriginCall]
                  · simp_all [runOp, hc, hql, runQlBranch, hsel, hhasR, hgetR, hrun,
                              safeCacheOperation, runQlMissPath,
                              Event.isSetCall, Event.isOriginCall]

/-- Witness for C1: a concrete `send` call whose origin throws. -/
theorem origin_failure_propagation_witness :
    (sendOp {} { name := some "srv", hasSend := true,
                 send := .error { message := "origin down", eid := 9 } }
        none envW cacheMissW statsOkW).1 =
      .error { message := "origin down", eid := 9 } ∧
    ((sendOp {} { name := some "srv", hasSend := true,
                  send := .error { message := "origin down", eid := 9 } }
        none envW cacheMissW statsOkW).2.all (fun ev => !ev.isSetCall)) = true :=
  (origin_failure_propagation {} _ none (RunArg.notAnObject)
      { name := some "S", next := .error { message := "origin down", eid := 9 },
        run := .error { message := "origin down", eid := 9 } }
      none {} envW envW cacheMissW cacheMissW statsOkW statsOkW
      { message := "origin down", eid := 9 } rfl rfl rfl).1 (by decide)

/-- C2 counterexample: with a backend whose `has` throws, `send` does not throw
and invokes the origin, but the returned `cacheErrors` is empty — it contains
no entry for the failed `has` call, not exactly one. -/
theorem has_failure_no_cache_error_entry :
    (sendOp {} serviceOkW none envW cacheHasFailsW statsOkW).1 =
      .ok { result := some 42, cacheKey := some "k",
            metadata := { hit := false, latency := 2 }, cacheErrors := [] } ∧
    Event.originCall ∈ (sendOp {} serviceOkW none envW cacheHasFailsW statsOkW).2 := by
  decide

/-- C2 amended: if `backend.has` throws, the coordinator does not throw — it
invokes the origin and returns the origin result with `hit: false`; however the
failed `has` call is only logged, so `cacheErrors` contains no entry for it
(not exactly one, as claimed). -/
theorem backend_has_failure_tolerance {V : Type} (request : SendReq) (service : Service V)
    (options : Option OptArg) (payload : RunArgObj) (peer : RunPeer V)
    (optionsArg : Option OptArg) (caps : CacheAnnotatedFunctions)
    (env envR : Env V) (cache cacheR : Backend V) (stats statsR : Stats)
    (e eR : JSError) (r rR : Option V) (s : String)
    (hby : (isWriteMethod request.method || !service.hasSend) = false)
    (hhas : cache.has = .error e) (horig : service.send = .ok r)
    (hsel : payload.SELECT = some s) (hhasR : cacheR.has = .error eR)
    (hrunR : peer.run = .ok rR) :
    ((∃ envl, (sendOp request service options env cache stats).1 = .ok envl ∧
        envl.result = r ∧ envl.metadata.hit = false ∧
        (envl.cacheErrors.all fun ce => !(ce.operation == "has")) = true) ∧
      Event.originCall ∈ (sendOp request service options env cache stats).2) ∧
    ((∃ envl, (runOp (.obj "cds.ql" payload) peer optionsArg caps envR cacheR statsR).1 =
          .ok (.envelope envl) ∧
        envl.result = rR ∧ envl.metadata.hit = false ∧
        (envl.cacheErrors.all fun ce => !(ce.operation == "has")) = true) ∧
      Event.originCall ∈
        (runOp (.obj "cds.ql" payload) peer optionsArg caps envR cacheR statsR).2) := by
  obtain ⟨rh, rm⟩ := stats
  obtain ⟨rhR, rmR⟩ := statsR
  constructor
  · rcases rm with erm | _ <;>
      rcases hset : cache.set with est | _ <;>
        simp_all [sendOp, sendMissPath, safeCacheOperation, pushError]
  · rcases rmR with erm | _ <;>
      rcases hset : cacheR.set with est | _ <;>
        simp_all [runOp, runQlBranch, runQlMissPath, isRequestCtor,
                  safeCacheOperation, pushError]

/-- Witness for C2 amended at concrete inputs. -/
theorem backend_has_failure_tolerance_witness :
    Event.originCall ∈ (sendOp {} serviceOkW none envW cacheHasFailsW statsOkW).2 ∧
    Event.originCall ∈
      (runOp (.obj "cds.ql" selectQlW) peerOkW none {} envW cacheHasFailsW statsOkW).2 :=
  ⟨(backend_has_failure_tolerance {} serviceOkW none selectQlW peerOkW none {}
      envW envW cacheHasFailsW cacheHasFailsW statsOkW statsOkW
      { message := "redis down", eid := 1 } { message := "redis down", eid := 1 }
      (some 42) (some 3) "q" rfl rfl rfl rfl rfl rfl).1.2,
   (backend_has_failure_tolerance {} serviceOkW none selectQlW peerOkW none {}
      envW envW cacheHasFailsW cacheHasFailsW statsOkW statsOkW
      { message := "redis down", eid := 1 } { message := "redis down", eid := 1 }
      (some 42) (some 3) "q" rfl rfl rfl rfl rfl rfl).2.2⟩

/-- C3 counterexample: a `recordHit` exception is returned as an entry of
`cacheErrors`, contradicting the claim that statistics errors never appear
there. -/
theorem stats_error_appears_in_cache_errors :
    (sendOp {} serviceOkW none envW cacheHitW statsHitFailsW).1 =
      .ok { result := some 5, cacheKey := some "k",
            metadata := { hit := true, latency := 1 },
            cacheErrors := [{ message := "stats db down", operation := "recordHit",
                              context := .keyLatency "k" 1 }] } := by
  decide

set_option maxHeartbeats 1600000 in
/-- C3 amended: an exception inside `recordHit`/`recordMiss` is caught and
never thrown, and it affects only `cacheErrors` (where it is appended as an
entry tagged with the statistics operation): removing the statistics-tagged
entries yields exactly the outcome of the same call with succeeding
statistics, for `send` and for `run`. -/
theorem statistics_error_isolation {V : Type} (request : SendReq) (service : Service V)
    (options : Option OptArg) (arg1 : RunArg V) (peer : RunPeer V)
    (optionsArg : Option OptArg) (caps : CacheAnnotatedFunctions)
    (env envR : Env V) (cache cacheR : Backend V) (stats : Stats) :
    stripStats (sendOp request service options env cache stats).1 =
      stripStats (sendOp request service options env cache statsOkW).1 ∧
    stripStatsRun (runOp arg1 peer optionsArg caps envR cacheR stats).1 =
      stripStatsRun (runOp arg1 peer optionsArg caps envR cacheR statsOkW).1 := by
  obtain ⟨rh, rm⟩ := stats
  constructor
  · cases hby : (isWriteMethod request.method || !service.hasSend)
    case true => simp [sendOp, hby]
    case false =>
      rcases hhas : cache.has with eh | (_ | _)
      · rcases hsvc : service.send with es | r <;>
          rcases rm with erm | _ <;>
            rcases hset : cache.set with est | _ <;>
              simp_all [sendOp, sendMissPath, safeCacheOperation, pushError,
                        stripStats, statsOkW, isStatsError]
      · rcases hsvc : service.send with es | r <;>
          rcases rm with erm | _ <;>
            rcases hset : cache.set with est | _ <;>
              simp_all [sendOp, sendMissPath, safeCacheOperation, pushError,
                        stripStats, statsOkW, isStatsError]
      · rcases hget : cache.get with eg | (_ | v)
        · rcases hsvc : service.send with es | r <;>
            rcases rh with erh | _ <;>
              rcases rm with erm | _ <;>
                rcases hset : cache.set with est | _ <;>
                  simp_all [sendOp, sendMissPath, safeCacheOperation, pushError,
                            stripStats, statsOkW, isStatsError]
        · rcases hsvc : service.send with es | r <;>
            rcases rh with erh | _ <;>
              rcases rm with erm | _ <;>
                rcases hset : cache.set with est | _ <;>
                  simp_all [sendOp, sendMissPath, safeCacheOperation, pushError,
                            stripStats, statsOkW, isStatsError]
        · rcases rh with erh | _ <;>
            simp_all [sendOp, safeCacheOperation, pushError,
                      stripStats, statsOkW, isStatsError]
  · cases arg1 with
    | notAnObject => simp [runOp]
    | nullValue => simp [runOp]
    | obj ctorName payload =>
      cases hc : isRequestCtor ctorName
      case false =>
        cases hql : (ctorName == "cds.ql")
        case false => simp [runOp, hc, hql]
        case true =>
          rcases hsel : payload.SELECT with _ | s
          · simp [runOp, hc, hql, runQlBranch, hsel]
          · rcases hhas : cacheR.has with eh | (_ | _)
            · rcases hrun : peer.run with er | r <;>
                rcases rm with erm | _ <;>
                  rcases hset : cacheR.set with est | _ <;>
                    simp_all [runOp, hc, hql, runQlBranch, hsel, runQlMissPath,
                              safeCacheOperation, pushError, stripStatsRun,
                              statsOkW, isStatsError]
            · rcases hrun : peer.run with er | r <;>
                rcases rm with erm | _ <;>
                  rcases hset : cacheR.set with est | _ <;>
                    simp_all [runOp, hc, hql, runQlBranch, hsel, runQlMissPath,
                              safeCacheOperation, pushError, stripStatsRun,
                              statsOkW, isStatsError]
            · rcases hget : cacheR.get with eg | (_ | v)
              · rcases hrun : peer.run with er | r <;>
                  rcases rh with erh | _ <;>
                    rcases rm with erm | _ <;>
                      rcases hset : cacheR.set with est | _ <;>
                        simp_all [runOp, hc, hql, runQlBranch, hsel, runQlMissPath,
                                  safeCacheOperation, pushError, stripStatsRun,
                                  statsOkW, isStatsError]
              · rcases hrun : peer.run with er | r <;>
                  rcases rh with erh | _ <;>
                    rcases rm with erm | _ <;>
                      rcases hset : cacheR.set with est | _ <;>
                        simp_all [runOp, hc, hql, runQlBranch, hsel, runQlMissPath,
                                  safeCacheOperation, pushError, stripStatsRun,
                                  statsOkW, isStatsError]
              · rcases rh with erh | _ <;>
                  simp_all [runOp, hc, hql, runQlBranch, hsel,
                            safeCacheOperation, pushError, stripStatsRun,
                            statsOkW, isStatsError]
      case true =>
        cases hmut : mutationQuery payload
        case true => simp [runOp, hc, runRequestBranch, hmut]
        case false =>
          rcases hget : cacheR.get with eg | (_ | v)
          · rcases hnext : peer.next with en | r <;>
              rcases rm with erm | _ <;>
                rcases hset : cacheR.set with est | _ <;>
                  simp_all [runOp, hc, runRequestBranch, hmut, safeCacheOperation,
                            pushError, stripStatsRun, statsOkW, isStatsError]
          · rcases hnext : peer.next with en | r <;>
              rcases rm with erm | _ <;>
                rcases hset : cacheR.set with est | _ <;>
                  simp_all [runOp, hc, runRequestBranch, hmut, safeCacheOperation,
                            pushError, stripStatsRun, statsOkW, isStatsError]
          · rcases rh with erh | _ <;>
              simp_all [runOp, hc, runRequestBranch, hmut, safeCacheOperation,
                        pushError, stripStatsRun, statsOkW, isStatsError]

/-- C4 counterexample: `run` with a Request whose query is an UPDATE invokes
the origin (`next()`) and returns its bare result; it does not return an
envelope with `cacheKey` null and `metadata` at all. -/
theorem run_mutation_delegates_bare :
    runOp (.obj "Request" updateReqW) peerOkW none {} envW cacheMissW statsOkW =
      (.ok (.bare (some 7)), [Event.originCall]) := by
  decide

/-- C4 amended: `send` with a write method performs no backend call and no
origin call and immediately returns the envelope
`{result: null, cacheKey: null, metadata: {hit: false, latency: 0},
cacheErrors: []}`; `run` with an UPDATE/INSERT/DELETE query likewise performs
no backend call, but it delegates to the origin (`next()`) and returns that
bare result rather than the claimed envelope. -/
theorem mutation_bypass {V : Type} (request : SendReq) (service : Service V)
    (options : Option OptArg) (peer : RunPeer V) (optionsArg : Option OptArg)
    (caps : CacheAnnotatedFunctions) (env envR : Env V) (cache cacheR : Backend V)
    (stats statsR : Stats)
    (hw : isWriteMethod request.method = true) :
    sendOp request service options env cache stats = (.ok emptyEnvelope, []) ∧
    (∀ ctorName payload, isRequestCtor ctorName = true → mutationQuery payload = true →
      runOp (.obj ctorName payload) peer optionsArg caps envR cacheR statsR =
        (bareOf peer.next, [Event.originCall])) := by
  constructor
  · simp [sendOp, hw]
  · intro ctorName payload hc hmut
    simp [runOp, hc, runRequestBranch, hmut]

/-- Witness for C4 amended at concrete inputs. -/
theorem mutation_bypass_witness :
    sendOp { method := some "POST" } serviceOkW none envW cacheMissW statsOkW =
      (.ok emptyEnvelope, []) ∧
    runOp (.obj "ODataRequest" updateReqW) peerOkW none {} envW cacheMissW statsOkW =
      (bareOf peerOkW.next, [Event.originCall]) :=
  ⟨(mutation_bypass { method := some "POST" } serviceOkW none peerOkW none {}
      envW envW cacheMissW cacheMissW statsOkW statsOkW (by decide)).1,
   (mutation_bypass { method := some "POST" } serviceOkW none peerOkW none {}
      envW envW cacheMissW cacheMissW statsOkW statsOkW (by decide)).2
      "ODataRequest" updateReqW (by decide) (by decide)⟩

/-- C5 counterexample: `run` with a cds.ql object without a SELECT returns the
bare result of `srv.run(query)`, not a response envelope. -/
theorem run_nonselect_returns_bare_result :
    runOp (.obj "cds.ql" {}) peerOkW none {} envW cacheMissW statsOkW =
      (.ok (.bare (some 3)), [Event.originCall]) := by
  decide

/-- Helper: the non-mutation path of the Request branch of `run` never returns
a bare result. -/
theorem runRequestBranch_read_not_bare {V : Type} (req : RunArgObj)
    (next : Except JSError (Option V)) (options : Option OptArg)
    (caps : CacheAnnotatedFunctions) (env : Env V) (cache : Backend V) (stats : Stats)
    (hmut : mutationQuery req = false) (v : Option V) :
    (runRequestBranch req next options caps env cache stats).1 ≠ .ok (.bare v) := by
  rcases hget : cache.get with eg | (_ | v0) <;>
    rcases next with en | r <;>
      simp_all [runRequestBranch, hmut, safeCacheOperation]

/-- Helper: the SELECT path of the cds.ql branch of `run` never returns a bare
result. -/
theorem runQlBranch_select_not_bare {V : Type} (query : RunArgObj) (srv : RunPeer V)
    (optionsArg : Option OptArg) (env : Env V) (cache : Backend V) (stats : Stats)
    (s : String) (hsel : query.SELECT = some s) (v : Option V) :
    (runQlBranch query srv optionsArg env cache stats).1 ≠ .ok (.bare v) := by
  rcases hhas : cache.has with eh | (_ | _) <;>
    rcases hget : cache.get with eg | (_ | v0) <;>
      rcases hrun : srv.run with er | r <;>
        simp_all [runQlBranch, hsel, runQlMissPath, safeCacheOperation]

/-- C5 amended: `send` always returns an envelope; `run` returns an envelope
for Request read paths, cds.ql SELECT paths and unrecognized non-null
arguments, but on the two delegation paths (a Request with an
UPDATE/INSERT/DELETE query, and a cds.ql object without SELECT) it returns the
bare origin result instead of an envelope. -/
theorem response_envelope_shape {V : Type} (arg1 : RunArg V) (peer : RunPeer V)
    (optionsArg : Option OptArg) (caps : CacheAnnotatedFunctions)
    (env : Env V) (cache : Backend V) (stats : Stats) :
    (barePath arg1 = true →
      (runOp arg1 peer optionsArg caps env cache stats).1 =
        bareOf (bareOrigin arg1 peer)) ∧
    (barePath arg1 = false →
      ∀ v, (runOp arg1 peer optionsArg caps env cache stats).1 ≠ .ok (.bare v)) := by
  constructor
  · intro hbp
    cases arg1 with
    | notAnObject => simp [barePath] at hbp
    | nullValue => simp [barePath] at hbp
    | obj c p =>
      cases hc : isRequestCtor c
      case true =>
        have hql : (c == "cds.ql") = false := by
          simp only [isRequestCtor, Bool.or_eq_true, beq_iff_eq] at hc
          rcases hc with (rfl | rfl) | rfl <;> decide
        cases hmut : mutationQuery p
        case true => simp [runOp, hc, runRequestBranch, hmut, bareOrigin]
        case false => simp [barePath, hc, hmut, hql] at hbp
      case false =>
        cases hql : (c == "cds.ql")
        case false => simp [barePath, hc, hql] at hbp
        case true =>
          rcases hsel : p.SELECT with _ | s
          · simp [runOp, hc, hql, runQlBranch, hsel, bareOrigin]
          · simp [barePath, hc, hql, hsel] at hbp
  · intro hbp v
    cases arg1 with
    | notAnObject => simp [runOp]
    | nullValue => simp [runOp]
    | obj c p =>
      cases hc : isRequestCtor c
      case true =>
        cases hmut : mutationQuery p
        case true => simp [barePath, hc, hmut] at hbp
        case false =>
          simp only [runOp, hc, if_true]
          exact runRequestBranch_read_not_bare p peer.next optionsArg caps env cache stats
            hmut v
      case false =>
        cases hql : (c == "cds.ql")
        case false => simp [runOp, hc, hql]
        case true =>
          rcases hsel : p.SELECT with _ | s
          · simp [barePath, hc, hql, hsel] at hbp
          · simp only [runOp, hc, hql, if_true, Bool.false_eq_true, if_false]
            exact runQlBranch_select_not_bare p peer optionsArg env cache stats s hsel v

/-- Witness for C5 amended at concrete inputs. -/
theorem response_envelope_shape_witness :
    (runOp (.obj "NoaRequest" updateReqW) peerOkW none {} envW cacheMissW statsOkW).1 =
      bareOf (bareOrigin (.obj "NoaRequest" updateReqW) peerOkW) ∧
    (runOp (.obj "NoaRequest" ({} : RunArgObj)) peerOkW none {} envW cacheMissW
        statsOkW).1 ≠ .ok (.bare (some 0)) :=
  ⟨(response_envelope_shape (.obj "NoaRequest" updateReqW) peerOkW none {} envW
      cacheMissW statsOkW).1 (by decide),
   (response_envelope_shape (.obj "NoaRequest" ({} : RunArgObj)) peerOkW none {} envW
      cacheMissW statsOkW).2 (by decide) (some 0)⟩

/-- C6 counterexample: the Request variant of `run` never calls `backend.has` —
it calls `backend.get` directly, so the three variants do not share the
has-then-get decision algorithm. -/
theorem run_request_variant_skips_has :
    ((runOp (.obj "Request" {}) peerOkW none {} envW cacheMissW statsOkW).2.all
        (fun ev => !ev.isHasCall)) = true ∧
    Event.getCall "k" ∈
      (runOp (.obj "Request" {}) peerOkW none {} envW cacheMissW statsOkW).2 := by
  decide

/-- C6 amended: the hit/miss decision is not one shared algorithm.  `send` and
the cds.ql SELECT path gate on `backend.has` through the wrapper: when `has`
reports true they record a hit (before knowing whether a value exists) and
call `get`, returning the hit envelope only when `get` yields a value and
otherwise falling through to the miss path; when `has` is false or throws they
go straight to the miss path without calling `get`.  The Request variant of
`run` never calls `has`: it calls `get` directly, decides the hit by value
presence, and records a hit only when a value actually exists. -/
theorem hit_miss_decision {V : Type} (request : SendReq) (service : Service V)
    (options optionsArg : Option OptArg) (payload payloadQ : RunArgObj)
    (peer : RunPeer V) (caps : CacheAnnotatedFunctions)
    (env : Env V) (cache : Backend V) (stats : Stats) (ctorName s : String)
    (hby : (isWriteMethod request.method || !service.hasSend) = false)
    (hc : isRequestCtor ctorName = true) (hmut : mutationQuery payload = false)
    (hsel : payloadQ.SELECT = some s) :
    (cache.has = .ok true →
      ((sendOp request service options env cache stats).2.any
        (fun ev => ev.isRecordHitCall)) = true ∧
      ((sendOp request service options env cache stats).2.any
        (fun ev => ev.isGetCall)) = true) ∧
    (∀ v, cache.has = .ok true → cache.get = .ok (some v) →
      (sendOp request service options env cache stats).1 =
        .ok { result := some v, cacheKey := some env.key,
              metadata := { hit := true, latency := env.cacheLatency },
              cacheErrors := pushError [] (safeCacheOperation stats.recordHit
                "recordHit" (.keyLatency env.key env.cacheLatency)) } ∧
      ((sendOp request service options env cache stats).2.any
        (fun ev => ev.isOriginCall)) = false) ∧
    (cache.has = .ok true → (∀ w, cache.get ≠ .ok (some w)) →
      ((sendOp request service options env cache stats).2.any
        (fun ev => ev.isOriginCall)) = true) ∧
    (cache.has ≠ .ok true →
      ((sendOp request service options env cache stats).2.any
        (fun ev => ev.isGetCall)) = false ∧
      ((sendOp request service options env cache stats).2.any
        (fun ev => ev.isRecordHitCall)) = false ∧
      ((sendOp request service options env cache stats).2.any
        (fun ev => ev.isOriginCall)) = true) ∧
    (cache.has = .ok true →
      ((runOp (.obj "cds.ql" payloadQ) peer optionsArg caps env cache stats).2.any
        (fun ev => ev.isRecordHitCall)) = true ∧
      ((runOp (.obj "cds.ql" payloadQ) peer optionsArg caps env cache stats).2.any
        (fun ev => ev.isGetCall)) = true) ∧
    (∀ v, cache.has = .ok true → cache.get = .ok (some v) →
      (runOp (.obj "cds.ql" payloadQ) peer optionsArg caps env cache stats).1 =
        .ok (.envelope
          { result := some v, cacheKey := some env.key,
            metadata := { hit := true, latency := env.cacheLatency },
            cacheErrors := pushError [] (safeCacheOperation stats.recordHit
              "recordHit" (.keyLatency env.key env.cacheLatency)) }) ∧
      ((runOp (.obj "cds.ql" payloadQ) peer optionsArg caps env cache stats).2.any
        (fun ev => ev.isOriginCall)) = false) ∧
    (cache.has = .ok true → (∀ w, cache.get ≠ .ok (some w)) →
      ((runOp (.obj "cds.ql" payloadQ) peer optionsArg caps env cache stats).2.any
        (fun ev => ev.isOriginCall)) = true) ∧
    (cache.has ≠ .ok true →
      ((runOp (.obj "cds.ql" payloadQ) peer optionsArg caps env cache stats).2.any
        (fun ev => ev.isGetCall)) = false ∧
      ((runOp (.obj "cds.ql" payloadQ) peer optionsArg caps env cache stats).2.any
        (fun ev => ev.isRecordHitCall)) = false ∧
      ((runOp (.obj "cds.ql" payloadQ) peer optionsArg caps env cache stats).2.any
        (fun ev => ev.isOriginCall)) = true) ∧
    (((runOp (.obj ctorName payload) peer optionsArg caps env cache stats).2.any
        (fun ev => ev.isHasCall)) = false) ∧
    (∀ v, cache.get = .ok (some v) →
      (runOp (.obj ctorName payload) peer optionsArg caps env cache stats).1 =
        .ok (.envelope
          { result := some v, cacheKey := some env.key,
            metadata := { hit := true, latency := env.cacheLatency },
            cacheErrors := pushError [] (safeCacheOperation stats.recordHit
              "recordHit" (.keyLatency env.key env.cacheLatency)) }) ∧
      ((runOp (.obj ctorName payload) peer optionsArg caps env cache stats).2.any
        (fun ev => ev.isOriginCall)) = false) ∧
    ((∀ w, cache.get ≠ .ok (some w)) →
      ((runOp (.obj ctorName payload) peer optionsArg caps env cache stats).2.any
        (fun ev => ev.isOriginCall)) = true ∧
      ((runOp (.obj ctorName payload) peer optionsArg caps env cache stats).2.any
        (fun ev => ev.isRecordHitCall)) = false) := by
  refine ⟨?_, ?_, ?_, ?_, ?_, ?_, ?_, ?_, ?_, ?_, ?_⟩
  · intro hhas
    rcases hget : cache.get with eg | (_ | v) <;>
      rcases hsvc : service.send with es | r <;>
        simp_all [sendOp, sendMissPath, safeCacheOperation, pushError,
                  Event.isRecordHitCall, Event.isGetCall]
  · intro v hhas hget
    constructor
    · simp [sendOp, hby, hhas, hget, safeCacheOperation]
    · simp [sendOp, hby, hhas, hget, safeCacheOperation, Event.isOriginCall]
  · intro hhas hno
    rcases hget : cache.get with eg | (_ | v)
    · rcases hsvc : service.send with es | r <;>
        simp_all [sendOp, sendMissPath, safeCacheOperation, Event.isOriginCall]
    · rcases hsvc : service.send with es | r <;>
        simp_all [sendOp, sendMissPath, safeCacheOperation, Event.isOriginCall]
    · exact absurd hget (hno v)
  · intro hne
    rcases hhas : cache.has with eh | b
    · rcases hsvc : service.send with es | r <;>
        simp_all [sendOp, sendMissPath, safeCacheOperation,
                  Event.isGetCall, Event.isRecordHitCall, Event.isOriginCall]
    · cases b
      · rcases hsvc : service.send with es | r <;>
          simp_all [sendOp, sendMissPath, safeCacheOperation,
                    Event.isGetCall, Event.isRecordHitCall, Event.isOriginCall]
      · exact absurd hhas hne
  · intro hhas
    rcases hget : cache.get with eg | (_ | v) <;>
      rcases hrun : peer.run with er | r <;>
        simp_all [runOp, isRequestCtor, runQlBranch, hsel, runQlMissPath,
                  safeCacheOperation, pushError,
                  Event.isRecordHitCall, Event.isGetCall]
  · intro v hhas hget
    constructor
    · simp [runOp, isRequestCtor, runQlBranch, hsel, hhas, hget, safeCacheOperation]
    · simp [runOp, isRequestCtor, runQlBranch, hsel, hhas, hget, safeCacheOperation,
            Event.isOriginCall]
  · intro hhas hno
    rcases hget : cache.get with eg | (_ | v)
    · rcases hrun : peer.run with er | r <;>
        simp_all [runOp, isRequestCtor, runQlBranch, hsel, runQlMissPath,
                  safeCacheOperation, Event.isOriginCall]
    · rcases hrun : peer.run with er | r <;>
        simp_all [runOp, isRequestCtor, runQlBranch, hsel, runQlMissPath,
                  safeCacheOperation, Event.isOriginCall]
    · exact absurd hget (hno v)
  · intro hne
    rcases hhas : cache.has with eh | b
    · rcases hrun : peer.run with er | r <;>
        simp_all [runOp, isRequestCtor, runQlBranch, hsel, runQlMissPath,
                  safeCacheOperation,
                  Event.isGetCall, Event.isRecordHitCall, Event.isOriginCall]
    · cases b
      · rcases hrun : peer.run with er | r <;>
          simp_all [runOp, isRequestCtor, runQlBranch, hsel, runQlMissPath,
                    safeCacheOperation,
                    Event.isGetCall, Event.isRecordHitCall, Event.isOriginCall]
      · exact absurd hhas hne
  · rcases hget : cache.get with eg | (_ | v) <;>
      rcases hnext : peer.next with en | r <;>
        simp_all [runOp, hc, runRequestBranch, hmut, safeCacheOperation,
                  Event.isHasCall]
  · intro v hget
    constructor
    · simp [runOp, hc, runRequestBranch, hmut, hget, safeCacheOperation]
    · simp [runOp, hc, runRequestBranch, hmut, hget, safeCacheOperation,
            Event.isOriginCall]
  · intro hno
    rcases hget : cache.get with eg | (_ | v)
    · rcases hnext : peer.next with en | r <;>
        simp_all [runOp, hc, runRequestBranch, hmut, safeCacheOperation,
                  Event.isOriginCall, Event.isRecordHitCall]
    · rcases hnext : peer.next with en | r <;>
        simp_all [runOp, hc, runRequestBranch, hmut, safeCacheOperation,
                  Event.isOriginCall, Event.isRecordHitCall]
    · exact absurd hget (hno v)

/-- Witness for C6 amended at concrete inputs. -/
theorem hit_miss_decision_witness :
    ((sendOp {} serviceOkW none envW cacheHitW statsOkW).2.any
      (fun ev => ev.isRecordHitCall)) = true ∧
    ((runOp (.obj "Request" ({} : RunArgObj)) peerOkW none {} envW cacheHitW
        statsOkW).2.any (fun ev => ev.isHasCall)) = false :=
  ⟨((hit_miss_decision {} serviceOkW none none {} selectQlW peerOkW {} envW cacheHitW
      statsOkW "Request" "q" (by decide) (by decide) (by decide) rfl).1 rfl).1,
   (hit_miss_decision {} serviceOkW none none {} selectQlW peerOkW {} envW cacheHitW
      statsOkW "Request" "q" (by decide) (by decide) (by decide) rfl).2.2.2.2.2.2.2.2.1⟩

/-- C9 counterexample: `run(null)` throws a TypeError (in JavaScript
`typeof null` is "object", and reading `null.constructor` throws), so it does
not return the `{result: null, cacheKey: null, ...}` envelope. -/
theorem run_null_argument_throws :
    runOp .nullValue peerOkW none {} envW cacheMissW statsOkW =
      (.error nullConstructorError, []) := by
  decide

/-- C7: on every cache miss in which the origin call succeeds, the coordinator
builds the entry `{value: origin response, tags: resolveTags(options.tags,
response, contextFields), timestamp: now}`, writes it via the backend `set`
under the computed key with the configured ttl (soft-fail), and returns
`{result: response, cacheKey: key, metadata: {hit: false, latency}}` with any
`set` failure recorded in `cacheErrors` — for each of the three variants. -/
theorem miss_write_through {V : Type} (request : SendReq) (service : Service V)
    (options optionsArg : Option OptArg) (payload payloadQ : RunArgObj)
    (peer : RunPeer V) (caps : CacheAnnotatedFunctions)
    (env : Env V) (cache : Backend V) (stats : Stats)
    (r rN rQ : Option V) (ctorName s : String)
    (hc : isRequestCtor ctorName = true) (hmut : mutationQuery payload = false)
    (hsel : payloadQ.SELECT = some s)
    (horig : service.send = .ok r) (hnext : peer.next = .ok rN)
    (hrun : peer.run = .ok rQ) :
    (((sendOp request service options env cache stats).2.any
        (fun ev => ev.isOriginCall)) = true →
      envelopeCore (sendOp request service options env cache stats).1 =
        some (r, some env.key, { hit := false, latency := env.totalLatency }) ∧
      Event.setCall env.key
          { value := r,
            tags := env.resolveTags (mergeOptions { ttl := 0 } options).tags r
              { params := request.params, user := request.user,
                tenant := request.tenant, locale := request.locale,
                hash := some env.hash },
            timestamp := env.now }
          (mergeOptions { ttl := 0 } options).ttl ∈
        (sendOp request service options env cache stats).2 ∧
      (∀ es, cache.set = .error es →
        ({ message := es.message, operation := "set",
           context := .keyTtl env.key (mergeOptions { ttl := 0 } options).ttl } :
          CacheError) ∈
          envelopeErrors (sendOp request service options env cache stats).1)) ∧
    (((runOp (.obj ctorName payload) peer optionsArg caps env cache stats).2.any
        (fun ev => ev.isOriginCall)) = true →
      runEnvelopeCore
          (runOp (.obj ctorName payload) peer optionsArg caps env cache stats).1 =
        some (rN, some env.key, { hit := false, latency := env.totalLatency }) ∧
      Event.setCall env.key
          { value := rN,
            tags := env.resolveTags
              (if payload.event.isSome then
                extractFunctionCacheOptions caps payload optionsArg
               else extractEntityCacheOptions payload optionsArg).tags rN
              { params := payload.params, hash := some env.hash },
            timestamp := env.now }
          (if payload.event.isSome then
            extractFunctionCacheOptions caps payload optionsArg
           else extractEntityCacheOptions payload optionsArg).ttl ∈
        (runOp (.obj ctorName payload) peer optionsArg caps env cache stats).2 ∧
      (∀ es, cache.set = .error es →
        ({ message := es.message, operation := "set",
           context := .keyTtl env.key
             (if payload.event.isSome then
               extractFunctionCacheOptions caps payload optionsArg
              else extractEntityCacheOptions payload optionsArg).ttl } :
          CacheError) ∈
          runEnvelopeErrors
            (runOp (.obj ctorName payload) peer optionsArg caps env cache stats).1)) ∧
    (((runOp (.obj "cds.ql" payloadQ) peer optionsArg caps env cache stats).2.any
        (fun ev => ev.isOriginCall)) = true →
      runEnvelopeCore
          (runOp (.obj "cds.ql" payloadQ) peer optionsArg caps env cache stats).1 =
        some (rQ, some env.key, { hit := false, latency := env.totalLatency }) ∧
      Event.setCall env.key
          { value := rQ,
            tags := env.resolveTags
              (mergeOptions { ttl := 0, tags := some [] } optionsArg).tags rQ
              { params := payloadQ.params, hash := some env.hash },
            timestamp := env.now }
          (mergeOptions { ttl := 0, tags := some [] } optionsArg).ttl ∈
        (runOp (.obj "cds.ql" payloadQ) peer optionsArg caps env cache stats).2 ∧
      (∀ es, cache.set = .error es →
        ({ message := es.message, operation := "set",
           context := .keyTtl env.key
             (mergeOptions { ttl := 0, tags := some [] } optionsArg).ttl } :
          CacheError) ∈
          runEnvelopeErrors
            (runOp (.obj "cds.ql" payloadQ) peer optionsArg caps env cache stats).1)) := by
  refine ⟨?_, ?_, ?_⟩
  · intro hmem
    cases hby : (isWriteMethod request.method || !service.hasSend)
    case true => simp_all [sendOp]
    case false =>
      rcases hhas : cache.has with eh | b
      · rcases hset : cache.set with est | _ <;>
          simp_all [sendOp, sendMissPath, safeCacheOperation, pushError,
                    envelopeCore, envelopeErrors, Event.isOriginCall]
      · cases b
        case false =>
          rcases hset : cache.set with est | _ <;>
            simp_all [sendOp, sendMissPath, safeCacheOperation, pushError,
                      envelopeCore, envelopeErrors, Event.isOriginCall]
        case true =>
          rcases hget : cache.get with eg | (_ | v)
          · rcases hset : cache.set with est | _ <;>
              simp_all [sendOp, sendMissPath, safeCacheOperation, pushError,
                        envelopeCore, envelopeErrors, Event.isOriginCall]
          · rcases hset : cache.set with est | _ <;>
              simp_all [sendOp, sendMissPath, safeCacheOperation, pushError,
                        envelopeCore, envelopeErrors, Event.isOriginCall]
          · simp_all [sendOp, safeCacheOperation, Event.isOriginCall]
  · intro hmem
    rcases hget : cache.get with eg | (_ | v)
    · rcases hset : cache.set with est | _ <;>
        simp_all [runOp, hc, runRequestBranch, hmut, safeCacheOperation, pushError,
                  runEnvelopeCore, runEnvelopeErrors, Event.isOriginCall]
    · rcases hset : cache.set with est | _ <;>
        simp_all [runOp, hc, runRequestBranch, hmut, safeCacheOperation, pushError,
                  runEnvelopeCore, runEnvelopeErrors, Event.isOriginCall]
    · simp_all [runOp, hc, runRequestBranch, hmut, safeCacheOperation,
                Event.isOriginCall]
  · intro hmem
    rcases hhas : cache.has with eh | b
    · rcases hset : cache.set with est | _ <;>
        simp_all [runOp, isRequestCtor, runQlBranch, hsel, runQlMissPath,
                  safeCacheOperation, pushError,
                  runEnvelopeCore, runEnvelopeErrors, Event.isOriginCall]
    · cases b
      case false =>
        rcases hset : cache.set with est | _ <;>
          simp_all [runOp, isRequestCtor, runQlBranch, hsel, runQlMissPath,
                    safeCacheOperation, pushError,
                    runEnvelopeCore, runEnvelopeErrors, Event.isOriginCall]
      case true =>
        rcases hget : cache.get with eg | (_ | v)
        · rcases hset : cache.set with est | _ <;>
            simp_all [runOp, isRequestCtor, runQlBranch, hsel, runQlMissPath,
                      safeCacheOperation, pushError,
                      runEnvelopeCore, runEnvelopeErrors, Event.isOriginCall]
        · rcases hset : cache.set with est | _ <;>
            simp_all [runOp, isRequestCtor, runQlBranch, hsel, runQlMissPath,
                      safeCacheOperation, pushError,
                      runEnvelopeCore, runEnvelopeErrors, Event.isOriginCall]
        · simp_all [runOp, isRequestCtor, runQlBranch, hsel, safeCacheOperation,
                    Event.isOriginCall]

/-- Witness for C7 at concrete inputs. -/
theorem miss_write_through_witness :
    envelopeCore (sendOp {} serviceOkW none envW cacheMissW statsOkW).1 =
      some (some 42, some "k", { hit := false, latency := 2 }) ∧
    runEnvelopeCore
        (runOp (.obj "cds.ql" selectQlW) peerOkW none {} envW cacheMissW statsOkW).1 =
      some (some 3, some "k", { hit := false, latency := 2 }) := by
  constructor
  · exact ((miss_write_through {} serviceOkW none none ({} : RunArgObj) selectQlW
      peerOkW {} envW cacheMissW statsOkW (some 42) (some 7) (some 3) "Request" "q"
      (by decide) (by decide) rfl rfl rfl rfl).1 (by decide)).1
  · exact ((miss_write_through {} serviceOkW none none ({} : RunArgObj) selectQlW
      peerOkW {} envW cacheMissW statsOkW (some 42) (some 7) (some 3) "Request" "q"
      (by decide) (by decide) rfl rfl rfl rfl).2.2 (by decide)).1

/-- C9 amended: `run` with a first argument that is a non-object value, or a
non-null object whose constructor name is none of Request, ODataRequest,
NoaRequest or cds.ql, invokes neither the backend nor any origin and returns
`{result: null, cacheKey: null, metadata: {hit: false, latency: 0},
cacheErrors: []}`; for the null value (whose `typeof` is "object" but which has
no constructor) the call instead throws a TypeError. -/
theorem run_unrecognized_argument {V : Type} (peer : RunPeer V)
    (optionsArg : Option OptArg) (caps : CacheAnnotatedFunctions)
    (env : Env V) (cache : Backend V) (stats : Stats) :
    runOp .notAnObject peer optionsArg caps env cache stats =
      (.ok (.envelope emptyEnvelope), []) ∧
    (∀ ctorName payload, isRequestCtor ctorName = false → (ctorName == "cds.ql") = false →
      runOp (.obj ctorName payload) peer optionsArg caps env cache stats =
        (.ok (.envelope emptyEnvelope), [])) ∧
    runOp .nullValue peer optionsArg caps env cache stats =
      (.error nullConstructorError, []) := by
  refine ⟨rfl, ?_, rfl⟩
  intro ctorName payload hc hql
  simp [runOp, hc, hql]

/-- Witness for C9 amended at concrete inputs. -/
theorem run_unrecognized_argument_witness :
    runOp (.obj "Array" {}) peerOkW none {} envW cacheMissW statsOkW =
      (.ok (.envelope emptyEnvelope), []) :=
  (run_unrecognized_argument peerOkW none {} envW cacheMissW statsOkW).2.1
    "Array" {} (by decide) (by decide)

/-- C10: a `send` call in which `backend.has` reports true, the backend `get`
yields no value, and the origin succeeds, invokes both `recordHit` and
`recordMiss`, and its envelope reports `hit: false`. -/
theorem phantom_hit_records_both {V : Type} (request : SendReq) (service : Service V)
    (options : Option OptArg) (env : Env V) (cache : Backend V) (stats : Stats)
    (r : Option V)
    (hby : (isWriteMethod request.method || !service.hasSend) = false)
    (hhas : cache.has = .ok true) (hget : cache.get = .ok none)
    (horig : service.send = .ok r) :
    (∃ envl, (sendOp request service options env cache stats).1 = .ok envl ∧
      envl.metadata.hit = false) ∧
    ((sendOp request service options env cache stats).2.any
      (fun ev => ev.isRecordHitCall)) = true ∧
    ((sendOp request service options env cache stats).2.any
      (fun ev => ev.isRecordMissCall)) = true := by
  obtain ⟨rh, rm⟩ := stats
  rcases rh with erh | _ <;>
    rcases rm with erm | _ <;>
      rcases hset : cache.set with est | _ <;>
        simp_all [sendOp, sendMissPath, safeCacheOperation, pushError,
                  Event.isRecordHitCall, Event.isRecordMissCall]

/-- Witness for C10 at concrete inputs. -/
theorem phantom_hit_records_both_witness :
    (∃ envl, (sendOp {} serviceOkW none envW
        { has := .ok true, get := .ok none, set := .ok () } statsOkW).1 = .ok envl ∧
      envl.metadata.hit = false) ∧
    ((sendOp {} serviceOkW none envW
        { has := .ok true, get := .ok none, set := .ok () } statsOkW).2.any
      (fun ev => ev.isRecordHitCall)) = true ∧
    ((sendOp {} serviceOkW none envW
        { has := .ok true, get := .ok none, set := .ok () } statsOkW).2.any
      (fun ev => ev.isRecordMissCall)) = true :=
  phantom_hit_records_both {} serviceOkW none envW
    { has := .ok true, get := .ok none, set := .ok () } statsOkW (some 42)
    (by decide) rfl rfl rfl

end CdsCaching
